import Mathlib

/-!
Verification development for the mrbench process-execution core.

Shallow embedding of:
- `src/mrbench/core/executor.py` (`SubprocessExecutor.run`, `_stream_output`,
  `run_with_stdin_prompt`) as deterministic interpreters over abstract child
  behaviours and I/O schedules;
- `src/mrbench/cli/bench.py` (`_run_prompt_with_fallback`);
- `src/mrbench/adapters/registry.py` (`AdapterRegistry.get_available`) and
  `src/mrbench/adapters/base.py` (`Adapter.is_available`);
- `src/mrbench/core/router.py` (the constraint filter of `Router.route`);
- the argv construction of the subprocess adapters
  (`ollama.py`, `claude.py`, `codex.py`, `goose.py`, `llamacpp.py`, `vllm.py`).

Python truthiness is modelled explicitly where the source relies on it
(`if stdin`, `result.error or ...`, `if constraints.max_context and ...`).
Wall-clock measurement is abstracted to supplied tick values; real time,
signals and the operating system are represented by explicit inputs
(child behaviour records, I/O schedules, an executable-resolution
environment).
-/

namespace Mrbench

/-- Python truthiness of an optional string: `None` and the empty string are
falsy. Used by `subprocess.PIPE if stdin else None` (executor.py line 83) and
`if stdin and process.stdin` (executor.py line 167). -/
def pyTruthyStr : Option String → Bool
  | none => false
  | some s => s ≠ ""

/-- Python truthiness of an optional natural: `None` and `0` are falsy.
Used by the context check of `Router.route` (router.py lines 106-110). -/
def pyTruthyNat : Option Nat → Bool
  | none => false
  | some n => n ≠ 0

/-- Python `x or y` on an optional string with a string default:
`None` and `""` fall through to the alternative
(`result.error or f"exit_code=..."`, bench.py line 108). -/
def pyOrStr (o : Option String) (alt : String) : String :=
  match o with
  | some s => if s = "" then alt else s
  | none => alt

/-- Substring relation on strings, as character-list infixes. -/
def isSubstrOf (pat s : String) : Prop := pat.data <:+: s.data

instance (pat s : String) : Decidable (isSubstrOf pat s) :=
  List.decidableInfix pat.data s.data

/-- `ExecutorResult` from executor.py lines 17-27. `wall_time_ms` is an
abstract tick count (the source measures the real clock). -/
structure ExecutorResult where
  stdout : String
  stderr : String
  exit_code : Int
  wall_time_ms : Nat
  timed_out : Bool := false
  ttft_ms : Option Nat := none
  chunks : List String := []
  deriving DecidableEq, Repr

/-- Environment of one `SubprocessExecutor.run` call: whether `args[0]`
resolves to an executable (`FileNotFoundError` from `Popen` otherwise,
executor.py line 126) and whether `Popen` fails with some other exception
(executor.py line 129). -/
structure ExecEnv where
  resolves : String → Bool
  spawnError : Option String := none

/-- Abstract behaviour of the child process for a non-streaming run:
when it would exit on its own, with what code and full outputs, and what
output it had produced by the time the timeout kill fires. -/
structure ChildSpec where
  exitTime : Nat
  exitCode : Int
  fullStdout : String
  fullStderr : String
  preKillStdout : String
  preKillStderr : String
  deriving DecidableEq, Repr

/-- The `FileNotFoundError` outcome of executor.py lines 126-128:
stderr is exactly `"Command not found: <args[0]>"`, exit code 127,
`timed_out` remains false. -/
def commandNotFoundResult (arg0 : String) : ExecutorResult :=
  { stdout := ""
    stderr := "Command not found: " ++ arg0
    exit_code := 127
    wall_time_ms := 0
    timed_out := false
    ttft_ms := none
    chunks := [] }

/-- The generic spawn-exception outcome of executor.py lines 129-131. -/
def execErrorResult (msg : String) : ExecutorResult :=
  { stdout := ""
    stderr := "Execution error: " ++ msg
    exit_code := 1
    wall_time_ms := 0
    timed_out := false
    ttft_ms := none
    chunks := [] }

/-- Non-streaming `SubprocessExecutor.run` (executor.py lines 73-143, with
`stream_callback` absent). On `subprocess.TimeoutExpired` the source kills
the process group and calls `process.wait()`; the partial output held by the
`TimeoutExpired` exception is not read, so `stdout_data` and `stderr_data`
stay empty, and the recorded exit code is the kill status (SIGKILL). -/
def runNonStreaming (env : ExecEnv) (timeout : Nat) (child : ChildSpec)
    (args : List String) (_stdin : Option String) : ExecutorResult :=
  if env.resolves (args.headD "") = false then
    commandNotFoundResult (args.headD "")
  else
    match env.spawnError with
    | some msg => execErrorResult msg
    | none =>
      if child.exitTime ≤ timeout then
        { stdout := child.fullStdout
          stderr := child.fullStderr
          exit_code := child.exitCode
          wall_time_ms := child.exitTime
          timed_out := false
          ttft_ms := none
          chunks := [] }
      else
        { stdout := ""
          stderr := ""
          exit_code := -9
          wall_time_ms := timeout
          timed_out := true
          ttft_ms := none
          chunks := [] }

/-- What happens to the stdin of the child across one `run` call.
`inherited` means no pipe was created, so the child shares the parent
stdin and receives no EOF-by-close. -/
inductive StdinDisposition where
  | inherited
  | pipedAndClosed (content : String)
  deriving DecidableEq, Repr

/-- Stdin handling of `SubprocessExecutor.run`: the pipe exists only when
`stdin` is truthy (`subprocess.PIPE if stdin else None`, executor.py line 83).
When the pipe exists, both modes write the string and close the stream
(`communicate(input=stdin, ...)` on line 107; `process.stdin.write` and
`process.stdin.close` on lines 167-169, guarded by `if stdin and
process.stdin`). -/
def stdinDisposition (stdin : Option String) : StdinDisposition :=
  if pyTruthyStr stdin then .pipedAndClosed (stdin.getD "") else .inherited

/-- One iteration of the `_stream_output` polling loop (executor.py lines
181-224), as observed at its suspension points: `elapsed` is the tick value of
`time.perf_counter() - start_time` at the loop head, `reads` the
`readline()` results delivered by `sel.select` for ready streams in order
(`true` tags the stdout stream, `false` the stderr stream; an empty string is
EOF, which unregisters the stream), `exited` whether `process.poll()` reports
exit at the end of the iteration, and `drainOut` / `drainErr` what
`fileobj.read()` returns for each still-registered stream in the drain
branch. -/
structure StreamIter where
  elapsed : Nat
  reads : List (Bool × String)
  exited : Bool
  drainOut : String
  drainErr : String
  deriving DecidableEq, Repr

/-- State of the `_stream_output` loop: the accumulated `stdout_data` and
`stderr_data` line buffers, the `chunks` list, the sequence of synchronous
callback invocations (`calls`, recording `callback(line)` on executor.py
line 205), a ghost trace `chunkTimes` pairing each appended chunk with the
elapsed tick at which it was read (instrumentation only: its first
component sequence is exactly `chunks`), the recorded `ttft_ms`, the
`timed_out` flag, registration flags for both selector streams, and whether
the loop has ended. -/
structure StreamState where
  outAcc : List String
  errAcc : List String
  chunks : List String
  calls : List String
  chunkTimes : List (String × Nat)
  ttft : Option Nat
  timedOut : Bool
  outReg : Bool
  errReg : Bool
  done : Bool
  deriving DecidableEq, Repr

/-- Loop state on entry to `_stream_output`: empty buffers, both streams
registered (executor.py lines 172-176). -/
def initStream : StreamState :=
  { outAcc := [], errAcc := [], chunks := [], calls := [], chunkTimes := []
    ttft := none, timedOut := false, outReg := true, errReg := true
    done := false }

/-- Handling of one `readline()` result inside the event loop (executor.py
lines 194-211): EOF unregisters the stream; a stdout line is appended to
`stdout_data`, `chunks`, and the callback, and sets `ttft_ms` if it is the
first line with non-empty stripped content; a stderr line is appended to
`stderr_data` only. -/
def doRead (elapsed : Nat) (st : StreamState) : Bool × String → StreamState
  | (true, line) =>
    if st.outReg = false then st
    else if line = "" then { st with outReg := false }
    else
      { st with
        outAcc := st.outAcc ++ [line]
        chunks := st.chunks ++ [line]
        calls := st.calls ++ [line]
        chunkTimes := st.chunkTimes ++ [(line, elapsed)]
        ttft := if st.ttft = none ∧ line.trim ≠ "" then some elapsed else st.ttft }
  | (false, line) =>
    if st.errReg = false then st
    else if line = "" then { st with errReg := false }
    else { st with errAcc := st.errAcc ++ [line] }

/-- One iteration of the `while sel.get_map()` loop (executor.py lines
181-224): exit when both streams are unregistered; on an expired deadline set
`timed_out`, kill the group and break; otherwise process the ready reads,
and if the process has exited, drain the remaining output of each registered
stream into the line buffers (never into `chunks` or the callback) and
break. -/
def doIter (timeout : Nat) (st : StreamState) (it : StreamIter) : StreamState :=
  if st.done then st
  else if st.outReg = false ∧ st.errReg = false then { st with done := true }
  else if timeout ≤ it.elapsed then { st with timedOut := true, done := true }
  else
    let st1 := it.reads.foldl (doRead it.elapsed) st
    if it.exited then
      let st2 :=
        if st1.outReg = true ∧ it.drainOut ≠ "" then
          { st1 with outAcc := st1.outAcc ++ [it.drainOut] }
        else st1
      let st3 :=
        if st2.errReg = true ∧ it.drainErr ≠ "" then
          { st2 with errAcc := st2.errAcc ++ [it.drainErr] }
        else st2
      { st3 with done := true }
    else st1

/-- The `_stream_output` loop run over a schedule of iterations. -/
def streamRun (timeout : Nat) (iters : List StreamIter) : StreamState :=
  iters.foldl (doIter timeout) initStream

/-- The elapsed tick paired with the first chunk whose trimmed content is
non-empty, if any. -/
def firstNonblankTime : List (String × Nat) → Option Nat
  | [] => none
  | (s, t) :: rest => if s.trim ≠ "" then some t else firstNonblankTime rest

/-- Streaming-mode `SubprocessExecutor.run` (executor.py lines 73-143 with
`stream_callback` provided, delegating to `_stream_output`): after the
resolution and spawn checks, the loop result is packaged into an
`ExecutorResult`; `natExit` is `process.returncode` when the process was not
killed by the timeout, and a timeout kill records the SIGKILL status. -/
def runStreamingExec (env : ExecEnv) (timeout : Nat) (iters : List StreamIter)
    (natExit : Int) (args : List String) (_stdin : Option String) : ExecutorResult :=
  if env.resolves (args.headD "") = false then
    commandNotFoundResult (args.headD "")
  else
    match env.spawnError with
    | some msg => execErrorResult msg
    | none =>
      let st := streamRun timeout iters
      { stdout := String.join st.outAcc
        stderr := String.join st.errAcc
        exit_code := if st.timedOut then -9 else natExit
        wall_time_ms := timeout
        timed_out := st.timedOut
        ttft_ms := st.ttft
        chunks := st.chunks }

/-- `RunResult` from base.py lines 41-54 (`raw_response`, an arbitrary
provider dictionary, is omitted: no claim consults it). Times are abstract
rational milliseconds. -/
structure RunResult where
  output : String
  exit_code : Int
  wall_time_ms : Rat
  ttft_ms : Option Rat := none
  error : Option String := none
  token_count_input : Option Nat := none
  token_count_output : Option Nat := none
  tokens_estimated : Bool := false
  chunks : List String := []
  deriving DecidableEq, Repr

/-- `RunOptions` from base.py lines 57-67 (`stream_callback` omitted: the
fallback runner under study constructs `RunOptions(model=model_name)` only,
and the callback plays no role in the claims over this type). -/
structure RunOptions where
  model : String
  stream : Bool := false
  timeout : Rat := 300
  max_tokens : Option Nat := none
  temperature : Option Rat := none
  system_prompt : Option String := none
  deriving DecidableEq, Repr

/-- Outcome of one `adapter.run(prompt_text, options)` call as observed by
`_run_prompt_with_fallback` (bench.py lines 87-109): either an exception with
its string rendering, or a returned `RunResult`. -/
inductive AdapterOutcome where
  | raises (msg : String)
  | returns (r : RunResult)
  deriving DecidableEq, Repr

/-- Whether an outcome counts as a failure for the fallback loop: an
exception, or a returned result with non-zero exit code. -/
def isFailureB : AdapterOutcome → Bool
  | .raises _ => true
  | .returns r => r.exit_code != 0

/-- The failure entry recorded for one candidate model (bench.py lines 90 and
108-109): `"<model>: <exception>"` for a raise, `"<model>: <error-or-exit-code>"`
for a non-zero return, where a null or empty `error` falls back to
`"exit_code=<code>"` by Python `or`. -/
def failureEntry (runFn : String → AdapterOutcome) (m : String) : String :=
  match runFn m with
  | .raises msg => m ++ ": " ++ msg
  | .returns r => m ++ ": " ++ pyOrStr r.error ("exit_code=" ++ toString r.exit_code)

/-- The failure entries for a list of candidate models, in attempt order. -/
def failuresOf (runFn : String → AdapterOutcome) (ms : List String) : List String :=
  ms.map (failureEntry runFn)

/-- The synthetic failed `RunResult` built by the fallback runner
(bench.py lines 92-100 and 112-120). -/
def syntheticFail (err : String) : RunResult :=
  { output := "", exit_code := 1, wall_time_ms := 0, error := some err }

/-- The error rewrite at loop exhaustion (bench.py lines 123-128): with a
truthy existing error the rewrite appends `" | attempts: <joined>"`,
otherwise the error is set to `"attempts: <joined>"`. -/
def appendAttempts (failures : List String) (r : RunResult) : RunResult :=
  let summary := String.intercalate "; " failures
  { r with
    error := some (match r.error with
      | some e => if e = "" then "attempts: " ++ summary else e ++ " | attempts: " ++ summary
      | none => "attempts: " ++ summary) }

/-- The body of `_run_prompt_with_fallback` (bench.py lines 77-130) over the
remaining candidate models. Arguments mirror the loop state: current index
(for `fallback_used = idx > 0`), accumulated `failures`, `last_result`,
`final_model` and `fallback_used`. Returns `(result, final_model,
fallback_used)`. -/
def fallbackGo (runFn : String → AdapterOutcome) :
    List String → Nat → List String → Option RunResult → String → Bool →
      RunResult × String × Bool
  | [], _idx, failures, lastResult, fm, fb =>
    match lastResult with
    | none => (syntheticFail "No model attempts were executed", fm, fb)
    | some last =>
      if failures = [] then (last, fm, fb) else (appendAttempts failures last, fm, fb)
  | m :: rest, idx, failures, lastResult, _fm, _fb =>
    let fb := decide (0 < idx)
    match runFn m with
    | .raises msg =>
      let failures2 := failures ++ [m ++ ": " ++ msg]
      if rest = [] then (syntheticFail (String.intercalate "; " failures2), m, fb)
      else fallbackGo runFn rest (idx + 1) failures2 lastResult m fb
    | .returns r =>
      if r.exit_code = 0 then (r, m, fb)
      else
        fallbackGo runFn rest (idx + 1)
          (failures ++ [m ++ ": " ++ pyOrStr r.error ("exit_code=" ++ toString r.exit_code)])
          (some r) m fb

/-- `_run_prompt_with_fallback` itself: the source reads
`candidate_models[0]` before the loop, which raises `IndexError` on an empty
list (modelled as `none`; the spec leaves empty candidate lists undefined). -/
def runPromptWithFallback (runFn : String → AdapterOutcome)
    (candidates : List String) : Option (RunResult × String × Bool) :=
  match candidates with
  | [] => none
  | m :: rest => some (fallbackGo runFn (m :: rest) 0 [] none m false)

/-- The terminal result of an exhausted fallback loop whose last candidate is
`lastM`, given the accumulated failure entries: a raise at the last index
yields the synthetic result with the semicolon-joined failures, a non-zero
return yields that result with the `attempts` rewrite. -/
def exhaustedResult (runFn : String → AdapterOutcome) (allFailures : List String)
    (lastM : String) : RunResult :=
  match runFn lastM with
  | .raises _ => syntheticFail (String.intercalate "; " allFailures)
  | .returns r => appendAttempts allFailures r

/-- `DetectionResult` from base.py lines 29-38. -/
structure DetectionResult where
  detected : Bool
  binary_path : Option String := none
  version : Option String := none
  auth_status : Option String := none
  trusted : Bool := true
  error : Option String := none
  deriving DecidableEq, Repr

/-- Outcome of one `adapter.detect()` call: an exception or a result. -/
inductive DetectOutcome where
  | raises (msg : String)
  | returns (d : DetectionResult)
  deriving DecidableEq, Repr

/-- A registered adapter as the registry observes it: its name and the
behaviour of its `detect()` method. -/
structure AdapterM where
  name : String
  detect : DetectOutcome
  deriving DecidableEq, Repr

/-- `Adapter.is_available` (base.py lines 137-144): it calls `self.detect()`
with no exception handling, so a raise propagates. -/
def isAvailable (a : AdapterM) : Except String Bool :=
  match a.detect with
  | .raises msg => .error msg
  | .returns d => .ok d.detected

/-- Whether an adapter would be kept by `get_available` when its `detect`
returns normally. -/
def detectedB (a : AdapterM) : Bool :=
  match a.detect with
  | .raises _ => false
  | .returns d => d.detected

/-- Whether an adapter `detect` returns normally (does not raise). -/
def noRaise (a : AdapterM) : Bool :=
  match a.detect with
  | .raises _ => false
  | .returns _ => true

/-- `AdapterRegistry.get_available` (registry.py lines 70-76): the list
comprehension `[adapter for adapter in self._adapters.values() if
adapter.is_available()]` evaluates `is_available` sequentially in
registration order, with no exception handling; the first raise propagates
out of `get_available`. -/
def getAvailable : List AdapterM → Except String (List AdapterM)
  | [] => .ok []
  | a :: rest =>
    match isAvailable a with
    | .error msg => .error msg
    | .ok b => (getAvailable rest).map (fun l => if b then a :: l else l)

/-- `AdapterCapabilities` from base.py lines 14-26. -/
structure AdapterCapabilities where
  name : String
  streaming : Bool := false
  tool_calling : Bool := false
  max_tokens : Option Nat := none
  max_context : Option Nat := none
  supports_system_prompt : Bool := true
  offline : Bool := false
  cost_per_1k_input : Option Rat := none
  cost_per_1k_output : Option Rat := none
  deriving DecidableEq, Repr

/-- `RoutingConstraints` from router.py lines 25-33. -/
structure RoutingConstraints where
  offline_only : Bool := false
  streaming_required : Bool := false
  max_context : Option Nat := none
  max_latency_ms : Option Nat := none
  tool_calling_required : Bool := false
  deriving DecidableEq, Repr

/-- The context clause of the `Router.route` filter (router.py lines
105-111): the adapter is skipped exactly when the constraint value is truthy,
the capability value is truthy, and the capability is strictly below the
constraint. Python truthiness makes both `None` and `0` inactive. -/
def excludedByContext (caps : AdapterCapabilities) (cons : RoutingConstraints) : Bool :=
  pyTruthyNat cons.max_context && pyTruthyNat caps.max_context &&
    decide (caps.max_context.getD 0 < cons.max_context.getD 0)

/-- The whole constraint filter of `Router.route` (router.py lines 89-111):
an adapter survives when none of the offline, streaming, tool-calling and
context checks skips it. -/
def passesConstraints (caps : AdapterCapabilities) (cons : RoutingConstraints) : Bool :=
  !(cons.offline_only && !caps.offline) &&
  !(cons.streaming_required && !caps.streaming) &&
  !(cons.tool_calling_required && !caps.tool_calling) &&
  !excludedByContext caps cons

/-- Argv built by `OllamaAdapter.run` (ollama.py line 136). -/
def ollamaArgv (binary model : String) : List String :=
  [binary, "run", model]

/-- Argv built by `ClaudeAdapter.run` (claude.py line 69). -/
def claudeArgv (binary : String) : List String :=
  [binary, "-p", "-", "--output-format", "text"]

/-- Argv built by `CodexAdapter.run` (codex.py line 66): the prompt is the
third element. -/
def codexArgv (binary prompt : String) : List String :=
  [binary, "exec", prompt]

/-- The `stdin` argument of the executor call made by `CodexAdapter.run`
(codex.py line 68, `self._executor.run(args)`): the default, `None`. -/
def codexRunStdin : Option String := none

/-- Argv built by `GooseAdapter.run` (goose.py line 67). -/
def gooseArgv (binary : String) : List String :=
  [binary, "run", "-"]

/-- Argv built by `LlamaCppAdapter.run` (llamacpp.py lines 102-111). -/
def llamacppArgv (binary modelPath : String) : List String :=
  [binary, "-m", modelPath, "-p", "-", "--no-display-prompt", "-n", "512"]

/-- Argv built by `VllmAdapter.run` (vllm.py lines 70-79): the `--model`
pair is added only when `options.model` is truthy. -/
def vllmArgv (binary model : String) : List String :=
  [binary, "complete", "--quick", "-"] ++
    (if model = "" then [] else ["--model", model])

/-- Keyword parameters accepted by `SubprocessExecutor.run` besides `self`
(executor.py lines 47-53): there is no per-call timeout parameter. -/
def subprocessExecutorRunKeywords : List String :=
  ["args", "stdin", "cwd", "stream_callback"]

/-- Keyword parameters accepted by `SubprocessExecutor.run_with_stdin_prompt`
besides `self` (executor.py lines 232-238). -/
def runWithStdinPromptKeywords : List String :=
  ["args", "prompt", "cwd", "stream_callback"]

/-- Keyword arguments `GooseAdapter.run` passes to
`run_with_stdin_prompt` (goose.py line 69): it passes `timeout=options.timeout`,
a keyword the callee does not accept, so the call raises `TypeError`. -/
def gooseRunKeywordArgs : List String :=
  ["args", "prompt", "timeout"]

/-- The timeout stored by `SubprocessExecutor.__init__` (executor.py lines
33-45); `run` reads `self.timeout` (lines 109 and 178). -/
structure SubprocessExecutorM where
  timeout : Rat
  deriving DecidableEq, Repr

/-- The wall-clock timeout `SubprocessExecutor.run` enforces: always the
constructor value `self.timeout`. -/
def executorTimeoutUsed (ex : SubprocessExecutorM) : Rat := ex.timeout

/-- The executor `OllamaAdapter.__init__` constructs (ollama.py line 32). -/
def ollamaInitExecutor (ctorTimeout : Rat) : SubprocessExecutorM :=
  { timeout := ctorTimeout }

/-- The wall-clock timeout enforced on the execution performed by
`OllamaAdapter.run` (ollama.py lines 129-146): the adapter calls the executor
without any timeout argument, so the options value is never consulted. -/
def ollamaRunEffectiveTimeout (ctorTimeout : Rat) (opts : RunOptions) : Rat :=
  let _ := opts
  executorTimeoutUsed (ollamaInitExecutor ctorTimeout)

/-! Concrete instances used by witnesses and counterexamples. -/

/-- A result for a model attempt that fails with a reported error. -/
def failedResult1 : RunResult :=
  { output := "", exit_code := 1, wall_time_ms := 2, error := some "err1" }

/-- A successful result for a fallback attempt. -/
def okResult2 : RunResult :=
  { output := "ok", exit_code := 0, wall_time_ms := 5 }

/-- Adapter behaviour where `m1` fails, `m2` succeeds and any later model
would raise if it were (incorrectly) attempted. -/
def shortCircuitRunFn : String → AdapterOutcome := fun s =>
  if s = "m1" then .returns failedResult1
  else if s = "m2" then .returns okResult2
  else .raises "must never be attempted"

/-- A failing result with error string distinct from `errB`. -/
def failedResultA : RunResult :=
  { output := "", exit_code := 1, wall_time_ms := 2, error := some "errA" }

/-- A failing result with error string distinct from `errA`. -/
def failedResultB : RunResult :=
  { output := "", exit_code := 2, wall_time_ms := 3, error := some "errB" }

/-- Adapter behaviour where both candidates fail with distinct errors. -/
def exhaustRunFn : String → AdapterOutcome := fun s =>
  if s = "m1" then .returns failedResultA
  else if s = "m2" then .returns failedResultB
  else .raises "unused"

/-- A non-zero result whose `error` is `None` (permitted by `RunResult`,
base.py line 49). -/
def noReasonFail : RunResult :=
  { output := "", exit_code := 2, wall_time_ms := 1, error := none }

/-- Adapter behaviour returning a reason-less failure for every model. -/
def noReasonRunFn : String → AdapterOutcome := fun _ => .returns noReasonFail

/-- A registered adapter whose `detect()` raises. -/
def raisingAdapter : AdapterM := { name := "bad", detect := .raises "boom" }

/-- A registered, detectable adapter placed after the raising one. -/
def workingAdapter : AdapterM :=
  { name := "good", detect := .returns { detected := true } }

/-- A detectable adapter. -/
def availAdapter : AdapterM :=
  { name := "avail", detect := .returns { detected := true } }

/-- An adapter whose detection reports `detected=false`. -/
def hiddenAdapter : AdapterM :=
  { name := "hidden", detect := .returns { detected := false } }

/-- Capabilities reporting a context size of `0` (a valid value of the
`max_context: int | None` field). -/
def capsZeroCtx : AdapterCapabilities := { name := "zeroctx", max_context := some 0 }

/-- Capabilities with an absent context size. -/
def capsNoCtx : AdapterCapabilities := { name := "noctx" }

/-- Capabilities reporting a context size of 500. -/
def capsSmallCtx : AdapterCapabilities := { name := "smallctx", max_context := some 500 }

/-- Constraints demanding a context of at least 1000. -/
def consFloor1000 : RoutingConstraints := { max_context := some 1000 }

/-- Invariant of the streaming loop state: the callback sequence equals the
chunk sequence, which is the first projection of the ghost chunk trace;
`ttft` is the time of the first non-blank chunk; and the chunk sequence is a
sublist of the stdout line buffer. -/
def StreamInv (st : StreamState) : Prop :=
  st.calls = st.chunks ∧
  st.chunks = st.chunkTimes.map Prod.fst ∧
  st.ttft = firstNonblankTime st.chunkTimes ∧
  List.Sublist st.chunks st.outAcc

theorem firstNonblankTime_append (l : List (String × Nat)) (s : String) (t : Nat) :
    firstNonblankTime (l ++ [(s, t)]) =
      if firstNonblankTime l = none then
        (if s.trim ≠ "" then some t else none)
      else firstNonblankTime l := by
  induction l with
  | nil => simp [firstNonblankTime]
  | cons p l ih =>
    obtain ⟨a, b⟩ := p
    by_cases ha : a.trim = ""
    · simpa [firstNonblankTime, ha] using ih
    · simp [firstNonblankTime, ha]

theorem streamInv_init : StreamInv initStream := by
  refine ⟨rfl, rfl, rfl, ?_⟩
  exact List.Sublist.refl _

theorem streamInv_doRead (e : Nat) (st : StreamState) (rd : Bool × String)
    (h : StreamInv st) : StreamInv (doRead e st rd) := by
  obtain ⟨h1, h2, h3, h4⟩ := h
  obtain ⟨b, line⟩ := rd
  cases b with
  | false =>
    simp only [doRead]
    split
    · exact ⟨h1, h2, h3, h4⟩
    · split
      · exact ⟨h1, h2, h3, h4⟩
      · exact ⟨h1, h2, h3, h4⟩
  | true =>
    simp only [doRead]
    split
    · exact ⟨h1, h2, h3, h4⟩
    · split
      · exact ⟨h1, h2, h3, h4⟩
      · refine ⟨by simp [h1], by simp [h2], ?_, h4.append (List.Sublist.refl _)⟩
        show (if st.ttft = none ∧ line.trim ≠ "" then some e else st.ttft) =
          firstNonblankTime (st.chunkTimes ++ [(line, e)])
        rw [firstNonblankTime_append, ← h3]
        by_cases ht : st.ttft = none
        · simp [ht]
        · simp [ht]

theorem streamInv_foldl_reads (e : Nat) (reads : List (Bool × String)) :
    ∀ st : StreamState, StreamInv st → StreamInv (reads.foldl (doRead e) st) := by
  induction reads with
  | nil => intro st h; exact h
  | cons rd reads ih =>
    intro st h
    exact ih _ (streamInv_doRead e st rd h)

theorem streamInv_doIter (timeout : Nat) (st : StreamState) (it : StreamIter)
    (h : StreamInv st) : StreamInv (doIter timeout st it) := by
  obtain ⟨h1, h2, h3, h4⟩ := h
  simp only [doIter]
  split
  · exact ⟨h1, h2, h3, h4⟩
  · split
    · exact ⟨h1, h2, h3, h4⟩
    · split
      · exact ⟨h1, h2, h3, h4⟩
      · have hst1 := streamInv_foldl_reads it.elapsed it.reads st ⟨h1, h2, h3, h4⟩
        set st1 := it.reads.foldl (doRead it.elapsed) st with hst1def
        obtain ⟨g1, g2, g3, g4⟩ := hst1
        split
        · -- process exited: drains touch only outAcc / errAcc
          constructor
          · split <;> split <;> exact g1
          · constructor
            · split <;> split <;> exact g2
            · constructor
              · split <;> split <;> exact g3
              · split
                · split
                  · exact (g4.trans (List.sublist_append_left _ _))
                  · exact (g4.trans (List.sublist_append_left _ _))
                · split
                  · exact g4
                  · exact g4
        · exact ⟨g1, g2, g3, g4⟩

theorem streamInv_run (timeout : Nat) (iters : List StreamIter) :
    StreamInv (streamRun timeout iters) := by
  have main : ∀ (l : List StreamIter) (st : StreamState), StreamInv st →
      StreamInv (l.foldl (doIter timeout) st) := by
    intro l
    induction l with
    | nil => intro st h; exact h
    | cons it l ih => intro st h; exact ih _ (streamInv_doIter timeout st it h)
  exact main iters initStream streamInv_init

theorem calls_doRead_err (e : Nat) (st : StreamState) (rd : Bool × String)
    (h : rd.1 = false) : (doRead e st rd).calls = st.calls := by
  obtain ⟨b, line⟩ := rd
  simp only at h
  subst h
  simp only [doRead]
  split
  · rfl
  · split <;> rfl

theorem calls_foldl_reads_err (e : Nat) (reads : List (Bool × String)) :
    ∀ st : StreamState, (∀ rd ∈ reads, rd.1 = false) →
      (reads.foldl (doRead e) st).calls = st.calls := by
  induction reads with
  | nil => intro st _; rfl
  | cons rd reads ih =>
    intro st h
    rw [List.foldl_cons, ih _ (fun x hx => h x (List.mem_cons_of_mem rd hx)),
      calls_doRead_err e st rd (h rd (List.mem_cons_self rd reads))]

theorem calls_doIter_err (timeout : Nat) (st : StreamState) (it : StreamIter)
    (h : ∀ rd ∈ it.reads, rd.1 = false) : (doIter timeout st it).calls = st.calls := by
  simp only [doIter]
  split
  · rfl
  · split
    · rfl
    · split
      · rfl
      · have hf := calls_foldl_reads_err it.elapsed it.reads st h
        split
        · split <;> split <;> exact hf
        · exact hf

theorem calls_streamRun_err (timeout : Nat) (iters : List StreamIter)
    (h : ∀ it ∈ iters, ∀ rd ∈ it.reads, rd.1 = false) :
    (streamRun timeout iters).calls = [] := by
  have main : ∀ (l : List StreamIter) (st : StreamState),
      (∀ it ∈ l, ∀ rd ∈ it.reads, rd.1 = false) →
      (l.foldl (doIter timeout) st).calls = st.calls := by
    intro l
    induction l with
    | nil => intro st _; rfl
    | cons it l ih =>
      intro st hl
      rw [List.foldl_cons, ih _ (fun x hx => hl x (List.mem_cons_of_mem it hx)),
        calls_doIter_err timeout st it (hl it (List.mem_cons_self it l))]
  exact main iters initStream h

theorem fallbackGo_success (runFn : String → AdapterOutcome) (m : String)
    (r : RunResult) (post : List String)
    (hm : runFn m = .returns r) (h0 : r.exit_code = 0) :
    ∀ (pre : List String) (idx : Nat) (failures : List String)
      (lastRes : Option RunResult) (fm : String) (fb : Bool),
      (∀ c ∈ pre, isFailureB (runFn c) = true) →
      fallbackGo runFn (pre ++ m :: post) idx failures lastRes fm fb =
        (r, m, decide (0 < idx + pre.length)) := by
  intro pre
  induction pre with
  | nil =>
    intro idx failures lastRes fm fb _
    simp only [List.nil_append]
    simp [fallbackGo, hm, h0]
  | cons c pre ih =>
    intro idx failures lastRes fm fb hfail
    have hc := hfail c (List.mem_cons_self c pre)
    have hrest : ∀ x ∈ pre, isFailureB (runFn x) = true :=
      fun x hx => hfail x (List.mem_cons_of_mem c hx)
    simp only [List.cons_append]
    have harith : idx + 1 + pre.length = idx + (c :: pre).length := by
      simp [List.length_cons]; omega
    cases hcc : runFn c with
    | raises msg =>
      have hne : pre ++ m :: post ≠ [] := by simp
      simp only [fallbackGo, hcc]
      rw [if_neg hne, ih (idx + 1) _ lastRes c (decide (0 < idx)) hrest, harith]
    | returns rc =>
      have hrc : ¬ rc.exit_code = 0 := by
        rw [hcc] at hc
        simpa [isFailureB] using hc
      simp only [fallbackGo, hcc]
      rw [if_neg hrc, ih (idx + 1) _ (some rc) c (decide (0 < idx)) hrest, harith]

theorem runPromptWithFallback_of_success (runFn : String → AdapterOutcome)
    (pre post : List String) (m : String) (r : RunResult)
    (hpre : ∀ c ∈ pre, isFailureB (runFn c) = true)
    (hm : runFn m = .returns r) (h0 : r.exit_code = 0) :
    runPromptWithFallback runFn (pre ++ m :: post) =
      some (r, m, decide (0 < pre.length)) := by
  cases pre with
  | nil =>
    have h := fallbackGo_success runFn m r post hm h0 [] 0 [] none m false hpre
    simp only [List.nil_append] at h ⊢
    simp [runPromptWithFallback, h]
  | cons c pre =>
    have h := fallbackGo_success runFn m r post hm h0 (c :: pre) 0 [] none c false hpre
    simp only [List.cons_append] at h ⊢
    simp [runPromptWithFallback, h]

theorem fallbackGo_exhaust (runFn : String → AdapterOutcome) (lastM : String) :
    ∀ (init : List String) (idx : Nat) (failures : List String)
      (lastRes : Option RunResult) (fm : String) (fb : Bool),
      (∀ c ∈ init ++ [lastM], isFailureB (runFn c) = true) →
      fallbackGo runFn (init ++ [lastM]) idx failures lastRes fm fb =
        (exhaustedResult runFn (failures ++ failuresOf runFn (init ++ [lastM])) lastM,
         lastM, decide (0 < idx + init.length)) := by
  intro init
  induction init with
  | nil =>
    intro idx failures lastRes fm fb hfail
    have hl := hfail lastM (by simp)
    simp only [List.nil_append]
    cases hm : runFn lastM with
    | raises msg =>
      simp [fallbackGo, hm, exhaustedResult, failuresOf, failureEntry]
    | returns r =>
      have hr : ¬ r.exit_code = 0 := by
        rw [hm] at hl
        simpa [isFailureB] using hl
      simp [fallbackGo, hm, hr, exhaustedResult, failuresOf, failureEntry]
  | cons c init ih =>
    intro idx failures lastRes fm fb hfail
    have hc := hfail c (by simp)
    have hrest : ∀ x ∈ init ++ [lastM], isFailureB (runFn x) = true :=
      fun x hx => hfail x (List.mem_cons_of_mem c hx)
    simp only [List.cons_append]
    have harith : idx + 1 + init.length = idx + (c :: init).length := by
      simp [List.length_cons]; omega
    cases hcc : runFn c with
    | raises msg =>
      have hne : init ++ [lastM] ≠ [] := by simp
      simp only [fallbackGo, hcc]
      rw [if_neg hne, ih (idx + 1) _ lastRes c (decide (0 < idx)) hrest, harith]
      have hlist : failures ++ [c ++ ": " ++ msg] ++ failuresOf runFn (init ++ [lastM]) =
          failures ++ failuresOf runFn (c :: (init ++ [lastM])) := by
        simp [failuresOf, failureEntry, hcc, List.append_assoc]
      rw [hlist]
    | returns rc =>
      have hrc : ¬ rc.exit_code = 0 := by
        rw [hcc] at hc
        simpa [isFailureB] using hc
      simp only [fallbackGo, hcc]
      rw [if_neg hrc, ih (idx + 1) _ (some rc) c (decide (0 < idx)) hrest, harith]
      have hlist : failures ++
            [c ++ ": " ++ pyOrStr rc.error ("exit_code=" ++ toString rc.exit_code)] ++
            failuresOf runFn (init ++ [lastM]) =
          failures ++ failuresOf runFn (c :: (init ++ [lastM])) := by
        simp [failuresOf, failureEntry, hcc, List.append_assoc]
      rw [hlist]

/-- Claim C1 (code bug): the claim says that for every subprocess adapter no
argv element contains the prompt as a substring and the prompt goes to the
child via stdin exclusively. `CodexAdapter.run` violates this: it builds
`argv = [binary, "exec", prompt]` (the prompt is argv element 2, hence
contains itself as a substring) and invokes the executor with the default
`stdin=None`, contradicting the argv-privacy test of the repository, which
includes `CodexAdapter` and asserts the opposite. -/
theorem codex_prompt_in_argv_bug :
    (codexArgv "/bin/codex" "TOP-SECRET: this prompt must never appear in argv")[2]? =
      some "TOP-SECRET: this prompt must never appear in argv" ∧
    isSubstrOf "TOP-SECRET: this prompt must never appear in argv"
      ((codexArgv "/bin/codex" "TOP-SECRET: this prompt must never appear in argv").getD 2 "") ∧
    codexRunStdin = none := by
  exact ⟨rfl, List.infix_rfl, rfl⟩

/-- Claim C2 (confirmed): when `args[0]` does not resolve to an executable,
both modes of `SubprocessExecutor.run` return the deterministic result with
exit code 127, stderr exactly `"Command not found: <args[0]>"` and
`timed_out=false`; no exception escapes, and as a pure function of its
inputs the embedded `run` yields this same result on every repeated call. -/
theorem executor_missing_binary_returns_127 (env : ExecEnv) (timeout : Nat)
    (child : ChildSpec) (iters : List StreamIter) (natExit : Int)
    (args : List String) (stdin : Option String)
    (_hne : args ≠ []) (hres : env.resolves (args.headD "") = false) :
    runNonStreaming env timeout child args stdin = commandNotFoundResult (args.headD "") ∧
    runStreamingExec env timeout iters natExit args stdin =
      commandNotFoundResult (args.headD "") ∧
    (commandNotFoundResult (args.headD "")).exit_code = 127 ∧
    (commandNotFoundResult (args.headD "")).stderr = "Command not found: " ++ args.headD "" ∧
    (commandNotFoundResult (args.headD "")).timed_out = false := by
  refine ⟨?_, ?_, rfl, rfl, rfl⟩
  · simp only [runNonStreaming]
    rw [if_pos hres]
  · simp only [runStreamingExec]
    rw [if_pos hres]

/-- Witness for C2 at a concrete missing binary. -/
theorem executor_missing_binary_returns_127_witness :
    (["definitely-not-a-real-binary-mrbench"] : List String) ≠ [] ∧
    runNonStreaming ⟨fun _ => false, none⟩ 1 ⟨0, 0, "", "", "", ""⟩
        ["definitely-not-a-real-binary-mrbench"] none =
      commandNotFoundResult "definitely-not-a-real-binary-mrbench" := by
  refine ⟨by simp, ?_⟩
  exact (executor_missing_binary_returns_127 ⟨fun _ => false, none⟩ 1 ⟨0, 0, "", "", "", ""⟩
    [] 0 ["definitely-not-a-real-binary-mrbench"] none (by simp) rfl).1

/-- Counterexample for C3: a non-streaming run whose child produced the
output `"ab\n"` before the timeout kill returns `stdout = ""` — the claim
says the stdout field contains the output produced up to the kill point, but
the source never reads the partial output held by `TimeoutExpired` and
appends nothing to the buffers on the timeout path. -/
theorem nonstreaming_timeout_discards_output_cex :
    (runNonStreaming ⟨fun _ => true, none⟩ 5 ⟨10, 0, "ab\n", "", "ab\n", ""⟩
        ["sleepy"] none).timed_out = true ∧
    (runNonStreaming ⟨fun _ => true, none⟩ 5 ⟨10, 0, "ab\n", "", "ab\n", ""⟩
        ["sleepy"] none).stdout = "" ∧
    ¬ isSubstrOf "ab\n"
      (runNonStreaming ⟨fun _ => true, none⟩ 5 ⟨10, 0, "ab\n", "", "ab\n", ""⟩
        ["sleepy"] none).stdout := by
  refine ⟨rfl, rfl, by decide⟩

/-- Claim C3 as amended: on a non-streaming timeout the result reports
`timed_out=true` with a non-zero (kill) exit code, but its stdout and stderr
are empty — the output produced before the kill is discarded, not drained. -/
theorem nonstreaming_timeout_amended (env : ExecEnv) (timeout : Nat)
    (child : ChildSpec) (args : List String) (stdin : Option String)
    (hres : env.resolves (args.headD "") = true) (hspawn : env.spawnError = none)
    (ht : timeout < child.exitTime) :
    (runNonStreaming env timeout child args stdin).timed_out = true ∧
    (runNonStreaming env timeout child args stdin).exit_code ≠ 0 ∧
    (runNonStreaming env timeout child args stdin).stdout = "" ∧
    (runNonStreaming env timeout child args stdin).stderr = "" := by
  have hlt : ¬ child.exitTime ≤ timeout := by omega
  simp only [runNonStreaming, hspawn]
  rw [if_neg (by rw [hres]; simp), if_neg hlt]
  refine ⟨rfl, ?_, rfl, rfl⟩
  show (-9 : Int) ≠ 0
  decide

/-- Witness for C3 (amended) at a concrete timing-out child. -/
theorem nonstreaming_timeout_amended_witness :
    (runNonStreaming ⟨fun _ => true, none⟩ 5 ⟨10, 0, "x", "y", "x", "y"⟩
        ["sleepy"] none).timed_out = true ∧
    (runNonStreaming ⟨fun _ => true, none⟩ 5 ⟨10, 0, "x", "y", "x", "y"⟩
        ["sleepy"] none).stdout = "" := by
  have h := nonstreaming_timeout_amended ⟨fun _ => true, none⟩ 5 ⟨10, 0, "x", "y", "x", "y"⟩
    ["sleepy"] none rfl rfl (by decide)
  exact ⟨h.1, h.2.2.1⟩

/-- Counterexample for C5: with the empty string as stdin the source creates
no stdin pipe at all (`subprocess.PIPE if stdin else None` is falsy on `""`),
so nothing is written and no EOF-by-close is signalled — the claim asserts
this happens for every stdin string including the empty one. -/
theorem empty_stdin_not_piped_cex :
    stdinDisposition (some "") = StdinDisposition.inherited ∧
    stdinDisposition (some "") ≠ StdinDisposition.pipedAndClosed "" := by
  exact ⟨rfl, by decide⟩

/-- Claim C5 as amended: every non-empty stdin string is written to the
stdin pipe of the child and the stream is then closed, signalling EOF. -/
theorem nonempty_stdin_piped_and_closed (s : String) (hs : s ≠ "") :
    stdinDisposition (some s) = StdinDisposition.pipedAndClosed s := by
  simp [stdinDisposition, pyTruthyStr, hs]

/-- Witness for C5 (amended) at a concrete non-empty stdin string. -/
theorem nonempty_stdin_piped_and_closed_witness :
    ("hello prompt" : String) ≠ "" ∧
    stdinDisposition (some "hello prompt") =
      StdinDisposition.pipedAndClosed "hello prompt" := by
  exact ⟨by decide, nonempty_stdin_piped_and_closed "hello prompt" (by decide)⟩

/-- Claim C9 (code bug): the per-call `RunOptions.timeout` is not the
enforced wall-clock timeout. The embedded `OllamaAdapter.run` path enforces
the constructor timeout (300) even when the options carry 42.5, and
`SubprocessExecutor.run` / `run_with_stdin_prompt` accept no `timeout`
keyword at all — yet `GooseAdapter.run` passes one (a `TypeError` at
runtime), and the repository test suite asserts the forwarded value. -/
theorem per_call_timeout_ignored_bug :
    ollamaRunEffectiveTimeout 300 { model := "llama3.2", timeout := 42.5 } = 300 ∧
    (42.5 : Rat) ≠ 300 ∧
    "timeout" ∈ gooseRunKeywordArgs ∧
    "timeout" ∉ runWithStdinPromptKeywords ∧
    "timeout" ∉ subprocessExecutorRunKeywords := by
  refine ⟨rfl, by norm_num, by decide, by decide, by decide⟩

/-- Counterexample for C10: capabilities reporting a context size of `0` —
a reported size strictly below the active floor of 1000 — are NOT excluded
by the context constraint, because the truthiness test
`constraints.max_context and caps.max_context and ...` treats `0` like
`None`; the claim says any reported size below the constraint is excluded. -/
theorem router_zero_context_not_excluded_cex :
    capsZeroCtx.max_context = some 0 ∧
    consFloor1000.max_context = some 1000 ∧
    (0 : Nat) < 1000 ∧
    excludedByContext capsZeroCtx consFloor1000 = false ∧
    passesConstraints capsZeroCtx consFloor1000 = true := by
  refine ⟨rfl, rfl, by omega, rfl, rfl⟩

/-- Claim C10 as amended: under an active (nonzero) minimum-context
constraint, an adapter whose capabilities report an absent or zero context
size is not excluded by the context check; one reporting a nonzero context
size strictly below the constraint is excluded; and one reporting at least
the constraint is not excluded. -/
theorem router_context_constraint_amended (caps : AdapterCapabilities)
    (cons : RoutingConstraints) (m : Nat)
    (hm : cons.max_context = some m) (hm0 : 0 < m) :
    ((caps.max_context = none ∨ caps.max_context = some 0) →
      excludedByContext caps cons = false) ∧
    (∀ n, caps.max_context = some n → 0 < n → n < m →
      excludedByContext caps cons = true) ∧
    (∀ n, caps.max_context = some n → m ≤ n →
      excludedByContext caps cons = false) := by
  refine ⟨?_, ?_, ?_⟩
  · rintro (h | h) <;> simp [excludedByContext, pyTruthyNat, h]
  · intro n hn hn0 hnm
    simp only [excludedByContext, pyTruthyNat, hm, hn, Option.getD_some]
    simp only [Bool.and_eq_true, decide_eq_true_eq]
    omega
  · intro n hn hmn
    simp only [excludedByContext, pyTruthyNat, hm, hn, Option.getD_some]
    have hnm : ¬ n < m := by omega
    simp [hnm]

/-- Witness for C10 (amended): absent context passes the filter, a reported
500 against a floor of 1000 is excluded. -/
theorem router_context_constraint_amended_witness :
    excludedByContext capsNoCtx consFloor1000 = false ∧
    excludedByContext capsSmallCtx consFloor1000 = true := by
  constructor
  · exact (router_context_constraint_amended capsNoCtx consFloor1000 1000 rfl
      (by omega)).1 (Or.inl rfl)
  · exact (router_context_constraint_amended capsSmallCtx consFloor1000 1000 rfl
      (by omega)).2.1 500 rfl (by omega) (by omega)

/-- Counterexample for C4: a schedule in which the loop reads the complete
line `"a\n"` and then finds the process exited with `"b\n"` still buffered.
The drain appends `"b\n"` to the stdout buffer only: the claim says every
complete stdout line is appended to the chunk sequence and passed to the
callback, but here the emitted complete line `"b\n"` reaches neither. -/
theorem streaming_drain_skips_callback_cex :
    String.join (streamRun 100 [⟨0, [(true, "a\n")], true, "b\n", ""⟩]).outAcc =
      "a\nb\n" ∧
    (streamRun 100 [⟨0, [(true, "a\n")], true, "b\n", ""⟩]).calls = ["a\n"] ∧
    (streamRun 100 [⟨0, [(true, "a\n")], true, "b\n", ""⟩]).chunks = ["a\n"] ∧
    "b\n" ∉ (streamRun 100 [⟨0, [(true, "a\n")], true, "b\n", ""⟩]).calls := by
  refine ⟨rfl, rfl, rfl, by decide⟩

/-- Claim C4 as amended: over every schedule, the callback sequence equals
the chunk sequence; the chunk sequence is exactly the stdout lines read by
the polling loop in emission order (the first projection of the ghost chunk
trace) and is a sublist of the stdout buffer (which additionally receives
the drained output); `ttft` is recorded exactly once, at the first chunk
whose trimmed content is non-empty; and a schedule delivering only stderr
lines produces no callback invocation at all. -/
theorem streaming_loop_amended (timeout : Nat) (iters : List StreamIter) :
    (streamRun timeout iters).calls = (streamRun timeout iters).chunks ∧
    (streamRun timeout iters).chunks =
      ((streamRun timeout iters).chunkTimes).map Prod.fst ∧
    (streamRun timeout iters).ttft =
      firstNonblankTime ((streamRun timeout iters).chunkTimes) ∧
    List.Sublist (streamRun timeout iters).chunks (streamRun timeout iters).outAcc ∧
    ((∀ it ∈ iters, ∀ rd ∈ it.reads, rd.1 = false) →
      (streamRun timeout iters).calls = []) := by
  obtain ⟨h1, h2, h3, h4⟩ := streamInv_run timeout iters
  exact ⟨h1, h2, h3, h4, fun herr => calls_streamRun_err timeout iters herr⟩

/-- Witness for C4 (amended) at a concrete stderr-only schedule. -/
theorem streaming_loop_amended_witness :
    (∀ it ∈ ([⟨3, [(false, "e\n")], false, "", ""⟩] : List StreamIter),
      ∀ rd ∈ it.reads, rd.1 = false) ∧
    (streamRun 50 [⟨3, [(false, "e\n")], false, "", ""⟩]).calls = [] := by
  refine ⟨by decide, ?_⟩
  exact (streaming_loop_amended 50 [⟨3, [(false, "e\n")], false, "", ""⟩]).2.2.2.2
    (by decide)

/-- Claim C6 (confirmed): the fallback runner stops at the first candidate
whose run returns exit code 0, returns that `RunResult` unchanged with
`fallback_used` true exactly when the successful index is positive, and its
outcome is independent of the behaviour of every later candidate (so no
later candidate is attempted). -/
theorem fallback_short_circuit_on_first_success
    (runFn g : String → AdapterOutcome) (pre post : List String)
    (m : String) (r : RunResult)
    (hpre : ∀ c ∈ pre, isFailureB (runFn c) = true)
    (hm : runFn m = .returns r) (h0 : r.exit_code = 0)
    (hg : ∀ c ∈ pre ++ [m], g c = runFn c) :
    runPromptWithFallback runFn (pre ++ m :: post) =
      some (r, m, decide (0 < pre.length)) ∧
    runPromptWithFallback g (pre ++ m :: post) =
      runPromptWithFallback runFn (pre ++ m :: post) := by
  have hgpre : ∀ c ∈ pre, isFailureB (g c) = true := fun c hc => by
    rw [hg c (List.mem_append_left _ hc)]
    exact hpre c hc
  have hgm : g m = .returns r := by
    rw [hg m (List.mem_append_right _ (List.mem_singleton.mpr rfl))]
    exact hm
  have hrun := runPromptWithFallback_of_success runFn pre post m r hpre hm h0
  have hgrun := runPromptWithFallback_of_success g pre post m r hgpre hgm h0
  exact ⟨hrun, hgrun.trans hrun.symm⟩

/-- Witness for C6 at the spec example `[m1, m2, m3]` with `m1` failing and
`m2` succeeding: the result is the `m2` result unchanged, with
`fallback_used = true`, whatever `m3` would have done. -/
theorem fallback_short_circuit_witness :
    runPromptWithFallback shortCircuitRunFn (["m1"] ++ "m2" :: ["m3"]) =
      some (okResult2, "m2", true) := by
  have h := (fallback_short_circuit_on_first_success shortCircuitRunFn shortCircuitRunFn
    ["m1"] ["m3"] "m2" okResult2 (by decide) (by decide) (by decide)
    (fun c _ => rfl)).1
  simpa using h

/-- Counterexample for C7: a single candidate returning exit code 2 with a
`None` error. The final error is `"attempts: m1: exit_code=2"`; the claim
says the error field is rewritten to append `" | attempts: "` followed by
the failure list, but no `" | attempts: "` occurs in the result. -/
theorem fallback_exhaustion_error_format_cex :
    (runPromptWithFallback noReasonRunFn ["m1"]).map (fun t => t.1.error) =
      some (some "attempts: m1: exit_code=2") ∧
    ¬ isSubstrOf " | attempts: " "attempts: m1: exit_code=2" ∧
    isFailureB (noReasonRunFn "m1") = true := by
  refine ⟨rfl, by decide, rfl⟩

/-- Claim C7 as amended: when every candidate fails, the runner returns the
terminal aggregation: if the last candidate returned a non-zero result, that
result with its error rewritten to `"<error> | attempts: <joined>"` when the
error is non-empty and to `"attempts: <joined>"` when it is null or empty;
if the last candidate raised, a synthetic failed result whose error is the
semicolon-joined failure list. The joined list contains one
`"<model>: <reason>"` entry per attempted candidate, so every attempted
model and its failure reason is recoverable; `final_model` is the last
candidate and `fallback_used` reflects whether more than one candidate was
tried. -/
theorem fallback_exhaustion_amended (runFn : String → AdapterOutcome)
    (init : List String) (lastM : String)
    (hfail : ∀ c ∈ init ++ [lastM], isFailureB (runFn c) = true) :
    runPromptWithFallback runFn (init ++ [lastM]) =
      some (exhaustedResult runFn (failuresOf runFn (init ++ [lastM])) lastM,
            lastM, decide (0 < init.length)) := by
  cases init with
  | nil =>
    have h := fallbackGo_exhaust runFn lastM [] 0 [] none lastM false hfail
    simp only [List.nil_append] at h ⊢
    simp [runPromptWithFallback, h]
  | cons c init =>
    have h := fallbackGo_exhaust runFn lastM (c :: init) 0 [] none c false hfail
    simp only [List.cons_append] at h ⊢
    simp [runPromptWithFallback, h]

/-- Witness for C7 (amended) at the spec example: two candidates failing
with distinct errors; both model identifiers and reasons appear in the
rewritten error of the returned last result. -/
theorem fallback_exhaustion_witness :
    runPromptWithFallback exhaustRunFn (["m1"] ++ ["m2"]) =
      some ({ failedResultB with
                error := some "errB | attempts: m1: errA; m2: errB" },
            "m2", true) := by
  have h := fallback_exhaustion_amended exhaustRunFn ["m1"] "m2" (by decide)
  rw [h]
  decide

/-- Counterexample for C8: a registry holding a raising adapter followed by
a detectable one. `get_available` propagates the exception, so the
detectable adapter is not returned — the claim says one throwing adapter
does not prevent the remaining adapters from being detected and returned. -/
theorem get_available_raise_propagates_cex :
    getAvailable [raisingAdapter, workingAdapter] = Except.error "boom" ∧
    detectedB workingAdapter = true := by
  exact ⟨rfl, rfl⟩

/-- Claim C8 as amended: provided every registered adapter detect call
returns normally, `get_available` returns exactly the adapters reporting
`detected=true`, in registration order; there is no per-adapter fault
isolation, so a raising `detect()` propagates out of `get_available`. -/
theorem get_available_filters_detected_amended (l : List AdapterM)
    (h : ∀ a ∈ l, noRaise a = true) :
    getAvailable l = .ok (l.filter detectedB) := by
  revert h
  induction l with
  | nil => intro _; rfl
  | cons a rest ih =>
    intro h
    have ha := h a (List.mem_cons_self a rest)
    have hrest : ∀ x ∈ rest, noRaise x = true :=
      fun x hx => h x (List.mem_cons_of_mem a hx)
    cases hd : a.detect with
    | raises msg => simp [noRaise, hd] at ha
    | returns d =>
      have hb : detectedB a = d.detected := by simp [detectedB, hd]
      simp only [getAvailable, isAvailable, hd]
      rw [ih hrest]
      simp only [Except.map]
      rw [List.filter_cons, hb]

/-- Witness for C8 (amended) on a registry with one detected and one
undetected adapter, none raising. -/
theorem get_available_filters_detected_amended_witness :
    (∀ a ∈ [availAdapter, hiddenAdapter], noRaise a = true) ∧
    getAvailable [availAdapter, hiddenAdapter] = .ok [availAdapter] := by
  refine ⟨by decide, ?_⟩
  have h := get_available_filters_detected_amended [availAdapter, hiddenAdapter]
    (by decide)
  rw [h]
  rfl

end Mrbench
